import Mathlib

/-!
Verification of the portfolio risk/return computation engine of
`stratigos-ai-analytics` (Monte Carlo simulator and risk-parity optimizer,
`src/serverless/src/functions/monte_carlo/simulate.py` and
`src/serverless/src/functions/optimization/risk_parity.py`).

Modelling conventions:
* Python/JSON values that flow through request validation are modelled by the
  inductive `PyVal`; IEEE-754 doubles are modelled by `FloatVal`
  (a finite rational, `nan`, `inf` or `ninf`).
* The numeric core (trajectory compounding, mean/covariance, percentiles,
  optimizer post-processing) is modelled in exact arithmetic over `ℚ`
  (resp. `ℝ` where a square root is mathematically meaningful); `np.sqrt`
  on rationals is modelled by `Rat.sqrt`.  Where float special values matter
  (non-finite inputs reaching the trajectory loop) a dedicated `FloatVal`
  model of the same source lines is used.
* Randomness: `np.random.normal` draws are modelled as an injected stream of
  per-step portfolio draws, matching the spec's injectable draw source.
-/

set_option maxHeartbeats 1000000
set_option linter.unusedVariables false

namespace Stratigos

/-- Model of an IEEE-754 double: a finite value (exact rational) or one of
the special values NaN, +∞, -∞. -/
inductive FloatVal where
  | finite (q : ℚ)
  | nan
  | inf
  | ninf
deriving DecidableEq, Repr

/-- Model of the Python/JSON values appearing in a request body:
`None`, `bool`, `int`, `float`, `str`, `list`, `dict`. -/
inductive PyVal where
  | none
  | bool (b : Bool)
  | int (n : ℤ)
  | float (v : FloatVal)
  | str (s : String)
  | list (xs : List PyVal)
  | dict (xs : List (String × PyVal))

/-- `d.get(k, default)` on a Python dict: the stored value when the key is
present (even if it is `None`), otherwise the default. -/
def PyVal.getOr (v : PyVal) (k : String) (d : PyVal) : PyVal :=
  match v with
  | .dict xs =>
    match xs.find? (fun p => p.1 == k) with
    | some p => p.2
    | _ => d
  | _ => d

/-- `d.get(k)` on a Python dict (default `None`). -/
def PyVal.get (v : PyVal) (k : String) : PyVal := v.getOr k .none

/-- Python truthiness (`bool(x)`): `None`, `False`, zero numbers, empty
strings/lists/dicts are falsy; NaN and the infinities are truthy. -/
def PyVal.truthy : PyVal → Bool
  | .none => false
  | .bool b => b
  | .int n => n != 0
  | .float (.finite q) => q != 0
  | .float _ => true
  | .str s => s != ""
  | .list xs => !xs.isEmpty
  | .dict xs => !xs.isEmpty

/-- `isinstance(x, (int, float))`.  Python `bool` is a subclass of `int`,
so booleans count as numbers. -/
def PyVal.isNumber : PyVal → Bool
  | .bool _ => true
  | .int _ => true
  | .float _ => true
  | _ => false

/-- `isinstance(x, int)`.  Booleans are `int`s in Python. -/
def PyVal.isIntLike : PyVal → Bool
  | .bool _ => true
  | .int _ => true
  | _ => false

/-- `isinstance(x, dict)`. -/
def PyVal.isDict : PyVal → Bool
  | .dict _ => true
  | _ => false

/-- `x <= 0` under Python/IEEE comparison semantics for numbers
(`True` compares as 1, `False` as 0; `nan <= 0` and `inf <= 0` are false;
`-inf <= 0` is true).  Only invoked on values for which `isNumber` holds. -/
def PyVal.leZero : PyVal → Bool
  | .bool b => !b
  | .int n => n ≤ 0
  | .float (.finite q) => q ≤ 0
  | .float .nan => false
  | .float .inf => false
  | .float .ninf => true
  | _ => false

/-- `asset in returns` for a dict. -/
def PyVal.hasKey (v : PyVal) (k : String) : Bool :=
  match v with
  | .dict xs => xs.any (fun p => p.1 == k)
  | _ => false

/-- Validation errors produced for one `(asset, series)` entry of the
`returns` dict (`simulate.py` lines 220-224, `risk_parity.py` 202-206):
the series must be a list and all its entries numeric.  No length or
finiteness condition is checked. -/
def assetSeriesErrors : String × PyVal → List String
  | (asset, .list rs) =>
    if rs.all PyVal.isNumber then []
    else ["Returns for asset " ++ asset ++ " must be numeric"]
  | (asset, _) => ["Returns for asset " ++ asset ++ " must be a list"]

/-- The per-asset format errors over the whole `returns` dict. -/
def returnsFormatErrors : PyVal → List String
  | .dict xs => (xs.map assetSeriesErrors).flatten
  | _ => []

/-- Errors for the `returns` field (`simulate.py` lines 212-224):
required, must be a dict, entries must be numeric lists. -/
def returnsErrors (returns : PyVal) : List String :=
  if !returns.truthy then ["Returns data is required"]
  else if !returns.isDict then ["Returns data must be a dictionary"]
  else returnsFormatErrors returns

/-- Error for an optional parameter that must be a positive number when
present (`simulate.py` lines 227-231, `initialInvestment`). -/
def positiveNumberErrors (v : PyVal) (msg : String) : List String :=
  match v with
  | .none => []
  | _ => if !v.isNumber || v.leZero then [msg] else []

/-- Error for an optional parameter that must be a positive integer when
present (`simulate.py` lines 233-243, `numSimulations`/`numPeriods`). -/
def positiveIntErrors (v : PyVal) (msg : String) : List String :=
  match v with
  | .none => []
  | _ => if !v.isIntLike || v.leZero then [msg] else []

/-- `validate_request` of `monte_carlo/simulate.py` (lines 196-245). -/
def validateSimulate (body : PyVal) : List String :=
  (if !(body.get "portfolioId").truthy then ["Portfolio ID is required"] else [])
  ++ returnsErrors (body.get "returns")
  ++ positiveNumberErrors (body.get "initialInvestment")
      "Initial investment must be a positive number"
  ++ positiveIntErrors (body.get "numSimulations")
      "Number of simulations must be a positive integer"
  ++ positiveIntErrors (body.get "numPeriods")
      "Number of periods must be a positive integer"

/-- `validate_request` of `optimization/risk_parity.py` (lines 178-208). -/
def validateOptimize (body : PyVal) : List String :=
  (if !(body.get "portfolioId").truthy then ["Portfolio ID is required"] else [])
  ++ returnsErrors (body.get "returns")

/-! ### Numeric core over `ℚ` (exact model of the float computation) -/

/-- Portfolio value along one simulated path
(`simulate.py` lines 179-191): `value 0` is the initial investment and
`value (t+1) = value t * (1 + draw t)` where `draw t` is the t-th
per-step portfolio draw of that path. -/
def pathValue (initialInvestment : ℚ) (draw : ℕ → ℚ) : ℕ → ℚ
  | 0 => initialInvestment
  | t + 1 => pathValue initialInvestment draw t * (1 + draw t)

/-- `run_monte_carlo_simulation` (`simulate.py` lines 152-193), with the
`np.random.normal` draws supplied as an injected stream `draws i t`
(path `i`, step `t`); `weights`, `meanReturns` and `covMatrix` parameterize
the distribution of the injected draws and do not otherwise enter the
compounding recurrence.  Row `i` of the result is the trajectory
`[value 0, ..., value numPeriods]` of path `i`. -/
def run_monte_carlo_simulation (weights meanReturns : List ℚ)
    (covMatrix : List (List ℚ)) (initialInvestment : ℚ)
    (numPeriods numSimulations : ℕ) (draws : ℕ → ℕ → ℚ) : List (List ℚ) :=
  (List.range numSimulations).map fun i =>
    (List.range (numPeriods + 1)).map fun t => pathValue initialInvestment (draws i) t

/-- Entry `(i, t)` of a trajectory matrix (0 outside the matrix). -/
def entryAt (m : List (List ℚ)) (i t : ℕ) : ℚ := (m.getD i []).getD t 0

/-- `np.mean` of a 1-dimensional array, exactly. -/
def listMean (xs : List ℚ) : ℚ := xs.sum / xs.length

/-- One entry of `np.cov` (sample covariance, `ddof = 1`) between two
series of equal length `L`: `Σ (x-mx)(y-my) / (L-1)`.
(For `L = 1` numpy divides by zero and yields NaN; in this exact model the
rational convention `x / 0 = 0` applies — no claim depends on that branch.) -/
def covEntry (xs ys : List ℚ) : ℚ :=
  ((xs.zip ys).map fun p => (p.1 - listMean xs) * (p.2 - listMean ys)).sum
    / ((xs.length : ℚ) - 1)

/-- `np.cov` of a rows-as-variables matrix. -/
def covMatrixOf (rows : List (List ℚ)) : List (List ℚ) :=
  rows.map fun xs => rows.map fun ys => covEntry xs ys

/-- Dot product of two equal-length rational vectors. -/
def dotQ (xs ys : List ℚ) : ℚ := ((xs.zip ys).map fun p => p.1 * p.2).sum

/-- `np.dot(cov_matrix, w)` for a rows-as-lists matrix. -/
def matVecQ (m : List (List ℚ)) (w : List ℚ) : List ℚ := m.map fun row => dotQ row w

/-- Linear interpolation at fractional index `r` into a (sorted) list
(`np.percentile`'s interpolation between order statistics): with
`i = ⌊r⌋`, the value is `a[i] + (r - i) * (a[i+1] - a[i])`, the upper
index clamping to the last element at the top end. -/
def interpAt (ys : List ℚ) (r : ℚ) : ℚ :=
  ys.getD (⌊r⌋).toNat 0 + (r - (((⌊r⌋).toNat : ℕ) : ℚ)) *
    (ys.getD ((⌊r⌋).toNat + 1) (ys.getD (⌊r⌋).toNat 0) - ys.getD (⌊r⌋).toNat 0)

/-- `np.percentile(xs, p)` (linear-interpolation method): sort, then
interpolate at virtual index `p/100 * (n-1)`. -/
def percentile (xs : List ℚ) (p : ℚ) : ℚ :=
  interpAt (xs.insertionSort (· ≤ ·)) (p / 100 * ((xs.length : ℚ) - 1))

/-- `np.median`: the 50th percentile under linear interpolation
(mean of the two middle order statistics for even length). -/
def npMedian (xs : List ℚ) : ℚ := percentile xs 50

/-- `np.min` of a non-empty array (0 as a junk value on `[]`,
where numpy raises). -/
def npMin (xs : List ℚ) : ℚ := (xs.insertionSort (· ≤ ·)).headD 0

/-- `np.max` of a non-empty array (0 as a junk value on `[]`). -/
def npMax (xs : List ℚ) : ℚ := (xs.insertionSort (· ≤ ·)).getLastD 0

/-- Population variance (`np.std` squared, `ddof = 0`), exactly. -/
def popVariance (xs : List ℚ) : ℚ :=
  (xs.map fun x => (x - listMean xs) ^ 2).sum / xs.length

/-- `np.std` (population), with the square root modelled by `Rat.sqrt`
(exact on perfect squares, which is the only case any claim touches). -/
def npStd (xs : List ℚ) : ℚ := Rat.sqrt (popVariance xs)

/-! ### IEEE-754 special-value arithmetic (`FloatVal`), for the claims in
which non-finite values matter.  Finite arithmetic is exact (no rounding is
modelled); the NaN/∞ propagation rules follow IEEE-754. -/

/-- IEEE-754 addition on `FloatVal` (finite part exact). -/
def FloatVal.add : FloatVal → FloatVal → FloatVal
  | .nan, _ => .nan
  | _, .nan => .nan
  | .inf, .ninf => .nan
  | .ninf, .inf => .nan
  | .inf, _ => .inf
  | _, .inf => .inf
  | .ninf, _ => .ninf
  | _, .ninf => .ninf
  | .finite a, .finite b => .finite (a + b)

/-- IEEE-754 multiplication on `FloatVal` (finite part exact). -/
def FloatVal.mul : FloatVal → FloatVal → FloatVal
  | .nan, _ => .nan
  | _, .nan => .nan
  | .finite a, .finite b => .finite (a * b)
  | .inf, .inf => .inf
  | .inf, .ninf => .ninf
  | .ninf, .inf => .ninf
  | .ninf, .ninf => .inf
  | .inf, .finite b => if 0 < b then .inf else if b < 0 then .ninf else .nan
  | .finite a, .inf => if 0 < a then .inf else if a < 0 then .ninf else .nan
  | .ninf, .finite b => if 0 < b then .ninf else if b < 0 then .inf else .nan
  | .finite a, .ninf => if 0 < a then .ninf else if a < 0 then .inf else .nan

/-- A `FloatVal` is a finite IEEE-754 value. -/
def FloatVal.isFinite : FloatVal → Bool
  | .finite _ => true
  | _ => false

/-- Float-level portfolio value along one path: the same recurrence as
`pathValue` (`simulate.py` lines 179-191), over IEEE special values. -/
def pathValueF (initialInvestment : FloatVal) (draw : ℕ → FloatVal) : ℕ → FloatVal
  | 0 => initialInvestment
  | t + 1 => (pathValueF initialInvestment draw t).mul ((FloatVal.finite 1).add (draw t))

/-- Float-level trajectory matrix of `run_monte_carlo_simulation`
(`simulate.py` lines 179-193). -/
def runSimulationF (initialInvestment : FloatVal)
    (numPeriods numSimulations : ℕ) (draws : ℕ → ℕ → FloatVal) : List (List FloatVal) :=
  (List.range numSimulations).map fun i =>
    (List.range (numPeriods + 1)).map fun t => pathValueF initialInvestment (draws i) t

/-! ### Extraction of validated request values into the exact model -/

/-- The rational value of a Python number: booleans are treated as 1/0
(`bool` is an `int` subclass), finite floats exactly; non-finite floats
fall outside the exact rational model (`Option.none`). -/
def pyNum? : PyVal → Option ℚ
  | .bool b => some (if b then 1 else 0)
  | .int n => some (n : ℚ)
  | .float (.finite q) => some q
  | _ => Option.none

/-- The integer value of a Python `int`-like value
(booleans count as 1/0). -/
def pyInt? : PyVal → Option ℤ
  | .bool b => some (if b then 1 else 0)
  | .int n => some n
  | _ => Option.none

/-- One asset's return series as exact rationals. -/
def seriesOf (returns : PyVal) (asset : String) : Option (List ℚ) :=
  match returns.get asset with
  | .list rs => rs.mapM pyNum?
  | _ => Option.none

/-- All series have the same length (ragged rows make `np.array` raise,
which the handler's blanket `except` turns into an internal error). -/
def sameLengths : List (List ℚ) → Bool
  | [] => true
  | xs :: rest => rest.all fun ys => ys.length == xs.length

/-! ### Response-level models of the two lambda handlers.

Request parsing, DynamoDB persistence and the HTTP envelope are external
plumbing; the handlers are modelled from the parsed body onwards, with the
portfolio-lookup result and the random/solver collaborators as parameters.
The outcome types list every response kind of the spec's error taxonomy,
including the ones the code never produces. -/

/-- The statistics block of a simulation result
(`simulate.py` lines 97-112 and 125-132). -/
structure SimStatistics where
  meanFinalValue : ℚ
  medianFinalValue : ℚ
  minFinalValue : ℚ
  maxFinalValue : ℚ
  standardDeviation : ℚ
  p5 : ℚ
  p25 : ℚ
  p50 : ℚ
  p75 : ℚ
  p95 : ℚ
deriving DecidableEq, Repr

/-- `statistics` computed over the final column of the trajectory matrix
(`simulate.py` lines 97-112). -/
def computeStatistics (finals : List ℚ) : SimStatistics where
  meanFinalValue := listMean finals
  medianFinalValue := npMedian finals
  minFinalValue := npMin finals
  maxFinalValue := npMax finals
  standardDeviation := npStd finals
  p5 := percentile finals 5
  p25 := percentile finals 25
  p50 := percentile finals 50
  p75 := percentile finals 75
  p95 := percentile finals 95

/-- The `result` object of a simulation success response. -/
structure SimResult where
  trajectories : List (List ℚ)
  statistics : SimStatistics
deriving DecidableEq, Repr

/-- The possible simulation responses.  `degenerateFailure` and
`convergenceFailure` are the spec's `DegenerateInputError`/
`ConvergenceError` response kinds. -/
inductive SimOutcome where
  | validationFailure (errs : List String)
  | portfolioNotFound
  | internalFailure
  | degenerateFailure
  | convergenceFailure
  | ok (r : SimResult)
deriving DecidableEq, Repr

/-- The trajectory matrix of a success response ([] otherwise). -/
def SimOutcome.trajectoriesOrNil : SimOutcome → List (List ℚ)
  | .ok r => r.trajectories
  | _ => []

/-- The simulation lambda handler (`simulate.py` lines 42-141) from the
parsed body onwards: validation, portfolio lookup, missing-returns check,
statistics of the return series, the Monte Carlo core, and the statistics
of the final values.  `portfolio` is the DynamoDB lookup result (asset →
weight in insertion order); `draws` is the injected draw stream.  Ragged
or non-finite series reaching `np.array`/`np.mean` raise inside the `try`
block and surface as the blanket internal error (lines 143-149). -/
def simulateEngine (body : PyVal) (portfolio : Option (List (String × ℚ)))
    (draws : ℕ → ℕ → ℚ) : SimOutcome :=
  let errs := validateSimulate body
  if errs ≠ [] then .validationFailure errs
  else
    match portfolio with
    | Option.none => .portfolioNotFound
    | some assets =>
      let initialInvestment := body.getOr "initialInvestment" (.int 10000)
      let numSimulations := body.getOr "numSimulations" (.int 1000)
      let numPeriods := body.getOr "numPeriods" (.int 252)
      let returnsData := body.get "returns"
      let assetList := assets.map Prod.fst
      let missing := assetList.filter fun a => !returnsData.hasKey a
      if missing ≠ [] then
        .validationFailure ["Returns data missing for assets: " ++ String.intercalate ", " missing]
      else
        match assetList.mapM (seriesOf returnsData), pyNum? initialInvestment,
            pyInt? numSimulations, pyInt? numPeriods with
        | some rows, some init, some numSims, some numPers =>
          if sameLengths rows then
            let meanReturns := rows.map listMean
            let covMatrix := covMatrixOf rows
            let weights := assets.map Prod.snd
            let traj := run_monte_carlo_simulation weights meanReturns covMatrix init
              numPers.toNat numSims.toNat draws
            let finals := traj.map fun row => row.getLastD 0
            .ok { trajectories := traj, statistics := computeStatistics finals }
          else .internalFailure
        | _, _, _, _ => .internalFailure

/-- The opaque constrained solver's report (`scipy.optimize.minimize`,
`result.success` and `result.x`). -/
structure SolverOutput where
  success : Bool
  x : List ℚ
deriving DecidableEq, Repr

/-- The `result` object of an optimization success response
(`risk_parity.py` lines 128-136). -/
structure OptResult where
  weights : List (String × ℚ)
  portfolioVolatility : ℚ
  riskContribution : List (String × ℚ)
deriving DecidableEq, Repr

/-- The possible optimization responses.  `solverFailure` is the
`OPTIMIZATION_ERROR` branch (lines 102-107); `degenerateFailure` and
`convergenceFailure` are the spec's extra error kinds. -/
inductive OptOutcome where
  | validationFailure (errs : List String)
  | portfolioNotFound
  | solverFailure
  | internalFailure
  | degenerateFailure
  | convergenceFailure
  | ok (r : OptResult)
deriving DecidableEq, Repr

/-- The risk-parity lambda handler (`risk_parity.py` lines 43-144) from the
parsed body onwards, with the solver as an opaque collaborator mapping the
covariance matrix to its report.  Post-processing (lines 110-117):
normalize `result.x` to sum 1, then recompute volatility, marginal and risk
contributions from the normalized weights. -/
def riskParityEngine (body : PyVal) (portfolio : Option (List (String × ℚ)))
    (solver : List (List ℚ) → SolverOutput) : OptOutcome :=
  let errs := validateOptimize body
  if errs ≠ [] then .validationFailure errs
  else
    match portfolio with
    | Option.none => .portfolioNotFound
    | some assets =>
      let returnsData := body.get "returns"
      let assetList := assets.map Prod.fst
      let missing := assetList.filter fun a => !returnsData.hasKey a
      if missing ≠ [] then
        .validationFailure ["Returns data missing for assets: " ++ String.intercalate ", " missing]
      else
        match assetList.mapM (seriesOf returnsData) with
        | some rows =>
          if sameLengths rows then
            let covMatrix := covMatrixOf rows
            let out := solver covMatrix
            if !out.success then .solverFailure
            else
              let optimizedWeights := out.x.map fun w => w / out.x.sum
              let varianceQ := dotQ optimizedWeights (matVecQ covMatrix optimizedWeights)
              let volatilityQ := Rat.sqrt varianceQ
              let marginalQ := matVecQ covMatrix optimizedWeights
              let riskContributionQ :=
                (marginalQ.zip optimizedWeights).map fun p => p.1 * p.2 / volatilityQ
              .ok { weights := assetList.zip optimizedWeights,
                    portfolioVolatility := volatilityQ,
                    riskContribution := assetList.zip riskContributionQ }
          else .internalFailure
        | _ => .internalFailure

/-! ### The optimizer's reported metrics in exact real arithmetic
(`risk_parity.py` lines 110-117).  The float computation is modelled over
`ℝ` with the true square root, which is where the algebraic claims about
the reported values live. -/

/-- Line 111: the solver weights re-normalized to sum to one. -/
noncomputable def normalizeWeights {n : ℕ} (x : Fin n → ℝ) : Fin n → ℝ :=
  fun i => x i / ∑ j, x j

/-- `np.dot(cov_matrix, w)` — the marginal contribution vector (line 116). -/
noncomputable def matVecR {n : ℕ} (cov : Fin n → Fin n → ℝ) (w : Fin n → ℝ) : Fin n → ℝ :=
  fun i => ∑ j, cov i j * w j

/-- `wᵗ · Cov · w` (line 114). -/
noncomputable def portfolioVarianceR {n : ℕ} (cov : Fin n → Fin n → ℝ) (w : Fin n → ℝ) : ℝ :=
  ∑ i, w i * matVecR cov w i

/-- `sqrt(wᵗ · Cov · w)` (line 115). -/
noncomputable def portfolioVolatilityR {n : ℕ} (cov : Fin n → Fin n → ℝ) (w : Fin n → ℝ) : ℝ :=
  Real.sqrt (portfolioVarianceR cov w)

/-- Risk contributions `RCᵢ = marginalᵢ · wᵢ / vol` (line 117). -/
noncomputable def riskContributionR {n : ℕ} (cov : Fin n → Fin n → ℝ) (w : Fin n → ℝ) :
    Fin n → ℝ :=
  fun i => matVecR cov w i * w i / portfolioVolatilityR cov w

/-- The reported weights and metrics assembled by the handler. -/
structure OptReport (n : ℕ) where
  weights : Fin n → ℝ
  portfolioVolatility : ℝ
  riskContribution : Fin n → ℝ

/-- Post-processing of a successful solve (lines 110-117): normalize the
solver's `result.x`, then recompute volatility and risk contributions from
the normalized weights. -/
noncomputable def optPostProcess {n : ℕ} (cov : Fin n → Fin n → ℝ) (x : Fin n → ℝ) :
    OptReport n where
  weights := normalizeWeights x
  portfolioVolatility := portfolioVolatilityR cov (normalizeWeights x)
  riskContribution := riskContributionR cov (normalizeWeights x)

/-! ### Concrete requests used to settle the validation claims -/

/-- A simulation/optimization request with two per-asset series of
arbitrary (possibly different) lengths of finite float returns. -/
def mkReturnsBody (rsA rsB : List ℚ) : PyVal :=
  .dict [("portfolioId", .str "p1"),
    ("returns", .dict [("A", .list (rsA.map fun q => .float (.finite q))),
      ("B", .list (rsB.map fun q => .float (.finite q)))])]

/-- The request of the C10 claim: `numSimulations` and `numPeriods` are
the boolean `True` and the return series entries are booleans. -/
def boolBody : PyVal :=
  .dict [("portfolioId", .str "p1"),
    ("returns", .dict [("A", .list [.bool true, .bool false])]),
    ("numSimulations", .bool true),
    ("numPeriods", .bool true)]

/-- The C4 counterexample request: two assets with constant return series,
so the covariance matrix is identically zero and the portfolio volatility
is zero at every evaluated point. -/
def degenerateBody : PyVal :=
  .dict [("portfolioId", .str "p1"),
    ("returns", .dict [("A", .list [.float (.finite (1/100)), .float (.finite (1/100))]),
      ("B", .list [.float (.finite (1/50)), .float (.finite (1/50))])])]

/-- A simulation request whose `initialInvestment` is an arbitrary float
`f` (used for the non-finite-output claim). -/
def investmentBody (f : FloatVal) : PyVal :=
  .dict [("portfolioId", .str "p1"),
    ("returns", .dict [("A", .list [.float (.finite (1/100)), .float (.finite (1/50))])]),
    ("initialInvestment", .float f)]

/-! ### Helper lemmas -/

theorem entryAt_run (weights meanReturns : List ℚ) (covMatrix : List (List ℚ))
    (initialInvestment : ℚ) (numPeriods numSimulations : ℕ) (draws : ℕ → ℕ → ℚ)
    (i t : ℕ) (hi : i < numSimulations) (ht : t < numPeriods + 1) :
    entryAt (run_monte_carlo_simulation weights meanReturns covMatrix initialInvestment
        numPeriods numSimulations draws) i t = pathValue initialInvestment (draws i) t := by
  simp [entryAt, run_monte_carlo_simulation, List.getD_eq_getElem?_getD,
    List.getElem?_map, List.getElem?_range, hi, ht]

theorem row_run (weights meanReturns : List ℚ) (covMatrix : List (List ℚ))
    (initialInvestment : ℚ) (numPeriods numSimulations : ℕ) (draws : ℕ → ℕ → ℚ)
    (i : ℕ) (hi : i < numSimulations) :
    (run_monte_carlo_simulation weights meanReturns covMatrix initialInvestment
        numPeriods numSimulations draws).getD i [] =
      (List.range (numPeriods + 1)).map fun t => pathValue initialInvestment (draws i) t := by
  simp [run_monte_carlo_simulation, List.getD_eq_getElem?_getD,
    List.getElem?_map, List.getElem?_range, hi]

/-! ### Claim theorems -/

/-- C1: every simulated trajectory starts at the initial investment and
follows the compounding recurrence `value[t] = value[t-1] * (1 + draw[t])`;
with initialInvestment 10000, two periods and per-step draws
`[0.01, -0.005]`, the trajectory is `[10000, 10100, 10049.5]`. -/
theorem simulation_recurrence_and_scenario :
    (∀ (weights meanReturns : List ℚ) (covMatrix : List (List ℚ)) (initialInvestment : ℚ)
      (numPeriods numSimulations : ℕ) (draws : ℕ → ℕ → ℚ) (i t : ℕ),
      i < numSimulations → t < numPeriods →
      entryAt (run_monte_carlo_simulation weights meanReturns covMatrix initialInvestment
          numPeriods numSimulations draws) i 0 = initialInvestment ∧
      entryAt (run_monte_carlo_simulation weights meanReturns covMatrix initialInvestment
          numPeriods numSimulations draws) i (t + 1) =
        entryAt (run_monte_carlo_simulation weights meanReturns covMatrix initialInvestment
          numPeriods numSimulations draws) i t * (1 + draws i t)) ∧
    run_monte_carlo_simulation [1/2, 1/2] [1/1000, 1/500] [[0, 0], [0, 0]] 10000 2 1
      (fun i t => [1/100, -(1/200)].getD t 0) = [[10000, 10100, 100495/10]] := by
  constructor
  · intro weights meanReturns covMatrix initialInvestment numPeriods numSimulations draws i t hi ht
    refine ⟨entryAt_run _ _ _ _ _ _ _ _ _ hi (Nat.succ_pos _), ?_⟩
    rw [entryAt_run _ _ _ _ _ _ _ _ _ hi (by omega),
      entryAt_run _ _ _ _ _ _ _ _ _ hi (by omega)]
    rfl
  · norm_num [run_monte_carlo_simulation, List.range_succ, pathValue]

/-- C1 witness: the recurrence instantiated at the scenario input
(path 0, step 0 of a 1-path, 2-period run). -/
theorem simulation_recurrence_and_scenario_witness :
    (0 < 1 ∧ 0 < 2) ∧
    (entryAt (run_monte_carlo_simulation [1/2, 1/2] [1/1000, 1/500] [[0, 0], [0, 0]] 10000 2 1
        (fun i t => [1/100, -(1/200)].getD t 0)) 0 0 = 10000 ∧
      entryAt (run_monte_carlo_simulation [1/2, 1/2] [1/1000, 1/500] [[0, 0], [0, 0]] 10000 2 1
        (fun i t => [1/100, -(1/200)].getD t 0)) 0 1 =
        entryAt (run_monte_carlo_simulation [1/2, 1/2] [1/1000, 1/500] [[0, 0], [0, 0]] 10000 2 1
          (fun i t => [1/100, -(1/200)].getD t 0)) 0 0 * (1 + (1/100 : ℚ))) := by
  refine ⟨⟨Nat.one_pos, by omega⟩, ?_⟩
  have h := simulation_recurrence_and_scenario.1 [1/2, 1/2] [1/1000, 1/500] [[0, 0], [0, 0]]
    10000 2 1 (fun i t => [1/100, -(1/200)].getD t 0) 0 0 Nat.one_pos (by omega)
  simpa using h

/-- C6: the trajectory matrix has `numSimulations` rows of
`numPeriods + 1` entries each, and column 0 of every row equals the
initial investment exactly. -/
theorem trajectory_shape_and_initial_column :
    ∀ (weights meanReturns : List ℚ) (covMatrix : List (List ℚ)) (initialInvestment : ℚ)
      (numPeriods numSimulations : ℕ) (draws : ℕ → ℕ → ℚ),
      0 < numSimulations → 0 < numPeriods →
      (run_monte_carlo_simulation weights meanReturns covMatrix initialInvestment
          numPeriods numSimulations draws).length = numSimulations ∧
      ∀ i, i < numSimulations →
        ((run_monte_carlo_simulation weights meanReturns covMatrix initialInvestment
            numPeriods numSimulations draws).getD i []).length = numPeriods + 1 ∧
        entryAt (run_monte_carlo_simulation weights meanReturns covMatrix initialInvestment
            numPeriods numSimulations draws) i 0 = initialInvestment := by
  intro weights meanReturns covMatrix initialInvestment numPeriods numSimulations draws hS hP
  refine ⟨by simp [run_monte_carlo_simulation], ?_⟩
  intro i hi
  refine ⟨?_, entryAt_run _ _ _ _ _ _ _ _ _ hi (Nat.succ_pos _)⟩
  rw [row_run _ _ _ _ _ _ _ _ hi]
  simp

/-- C6 witness: shape and initial column at a concrete 2-path, 3-period
run. -/
theorem trajectory_shape_and_initial_column_witness :
    (0 < 2 ∧ 0 < 3) ∧
    ((run_monte_carlo_simulation [1] [0] [[0]] 500 3 2 (fun i t => 1)).length = 2 ∧
      ((run_monte_carlo_simulation [1] [0] [[0]] 500 3 2 (fun i t => 1)).getD 1 []).length = 4 ∧
      entryAt (run_monte_carlo_simulation [1] [0] [[0]] 500 3 2 (fun i t => 1)) 1 0 = 500) := by
  have h := trajectory_shape_and_initial_column [1] [0] [[0]] 500 3 2 (fun i t => 1)
    (by omega) (by omega)
  exact ⟨⟨by omega, by omega⟩, h.1, (h.2 1 (by omega)).1, (h.2 1 (by omega)).2⟩

/-- C8: with the draw source injected, the simulator is a deterministic
function of its inputs — two calls with identical weights, mean returns,
covariance, initial investment, period/simulation counts and draw stream
produce identical trajectory matrices. -/
theorem simulation_deterministic :
    ∀ (w₁ w₂ m₁ m₂ : List ℚ) (c₁ c₂ : List (List ℚ)) (init₁ init₂ : ℚ)
      (P₁ P₂ S₁ S₂ : ℕ) (d₁ d₂ : ℕ → ℕ → ℚ),
      w₁ = w₂ → m₁ = m₂ → c₁ = c₂ → init₁ = init₂ → P₁ = P₂ → S₁ = S₂ → d₁ = d₂ →
      run_monte_carlo_simulation w₁ m₁ c₁ init₁ P₁ S₁ d₁ =
        run_monte_carlo_simulation w₂ m₂ c₂ init₂ P₂ S₂ d₂ := by
  intro w₁ w₂ m₁ m₂ c₁ c₂ init₁ init₂ P₁ P₂ S₁ S₂ d₁ d₂ hw hm hc hinit hP hS hd
  rw [hw, hm, hc, hinit, hP, hS, hd]

/-- C8 witness: determinism applied to two textually identical concrete
calls. -/
theorem simulation_deterministic_witness :
    run_monte_carlo_simulation [1] [0] [[0]] 100 2 1 (fun i t => 0) =
      run_monte_carlo_simulation [1] [0] [[0]] 100 2 1 (fun i t => 0) :=
  simulation_deterministic [1] [1] [0] [0] [[0]] [[0]] 100 100 2 2 1 1
    (fun i t => 0) (fun i t => 0) rfl rfl rfl rfl rfl rfl rfl

/-- C2: on solver success the returned weights are the solver's weights
re-normalized to sum exactly to 1, each lies in [0,1], the sum is within
1e-6 of 1, and the reported volatility and risk contributions are
recomputed from the final normalized weights. -/
theorem optimizer_postprocess_normalized :
    ∀ (n : ℕ) (cov : Fin n → Fin n → ℝ) (x : Fin n → ℝ),
      (∀ i, 0 ≤ x i ∧ x i ≤ 1) → 0 < (∑ j, x j) →
      (optPostProcess cov x).weights = normalizeWeights x ∧
      (∑ i, (optPostProcess cov x).weights i) = 1 ∧
      (∀ i, 0 ≤ (optPostProcess cov x).weights i ∧ (optPostProcess cov x).weights i ≤ 1) ∧
      |(∑ i, (optPostProcess cov x).weights i) - 1| ≤ 1 / 1000000 ∧
      (optPostProcess cov x).portfolioVolatility =
        portfolioVolatilityR cov (normalizeWeights x) ∧
      (optPostProcess cov x).riskContribution =
        riskContributionR cov (normalizeWeights x) := by
  intro n cov x hx hpos
  have hsum : (∑ i, (optPostProcess cov x).weights i) = 1 := by
    show (∑ i, normalizeWeights x i) = 1
    unfold normalizeWeights
    rw [← Finset.sum_div]
    exact div_self (ne_of_gt hpos)
  refine ⟨rfl, hsum, ?_, by rw [hsum]; norm_num, rfl, rfl⟩
  intro i
  constructor
  · exact div_nonneg (hx i).1 hpos.le
  · rw [show (optPostProcess cov x).weights i = x i / ∑ j, x j from rfl,
      div_le_one hpos]
    exact Finset.single_le_sum (fun j _ => (hx j).1) (Finset.mem_univ i)

/-- C2 witness: the post-processing guarantees at the concrete solver
output `x = (1/2, 1/2)` for two assets with unit covariance. -/
theorem optimizer_postprocess_normalized_witness :
    ((∀ i : Fin 2, 0 ≤ (fun _ : Fin 2 => (1/2 : ℝ)) i ∧ (fun _ : Fin 2 => (1/2 : ℝ)) i ≤ 1) ∧
      0 < ∑ j : Fin 2, (fun _ : Fin 2 => (1/2 : ℝ)) j) ∧
    (∑ i, (optPostProcess (fun _ _ : Fin 2 => (1 : ℝ)) fun _ => 1/2).weights i) = 1 := by
  have h1 : ∀ i : Fin 2, 0 ≤ (fun _ : Fin 2 => (1/2 : ℝ)) i ∧ (fun _ : Fin 2 => (1/2 : ℝ)) i ≤ 1 := by
    intro i; norm_num
  have h2 : 0 < ∑ j : Fin 2, (fun _ : Fin 2 => (1/2 : ℝ)) j := by
    rw [Fin.sum_univ_two]; norm_num
  exact ⟨⟨h1, h2⟩,
    (optimizer_postprocess_normalized 2 (fun _ _ => 1) (fun _ => 1/2) h1 h2).2.1⟩

/-- C9: whenever the reported portfolio volatility is strictly positive,
the reported per-asset risk contributions sum to it (Euler decomposition
of `sqrt(wᵗ·Cov·w)`). -/
theorem risk_contributions_sum_to_volatility :
    ∀ (n : ℕ) (cov : Fin n → Fin n → ℝ) (w : Fin n → ℝ),
      0 < portfolioVolatilityR cov w →
      (∑ i, riskContributionR cov w i) = portfolioVolatilityR cov w := by
  intro n cov w hvol
  have hvar : 0 < portfolioVarianceR cov w :=
    Real.sqrt_pos.mp (by simpa [portfolioVolatilityR] using hvol)
  unfold riskContributionR portfolioVolatilityR
  rw [← Finset.sum_div]
  have hnum : (∑ i, matVecR cov w i * w i) = portfolioVarianceR cov w := by
    unfold portfolioVarianceR
    exact Finset.sum_congr rfl fun i _ => mul_comm _ _
  rw [hnum]
  exact Real.div_sqrt

/-- C9 witness: one asset with unit variance and weight 1 — volatility 1,
risk contribution sums to 1. -/
theorem risk_contributions_sum_to_volatility_witness :
    0 < portfolioVolatilityR (fun _ _ : Fin 1 => (1 : ℝ)) (fun _ => 1) ∧
    (∑ i, riskContributionR (fun _ _ : Fin 1 => (1 : ℝ)) (fun _ => 1) i) =
      portfolioVolatilityR (fun _ _ : Fin 1 => (1 : ℝ)) (fun _ => 1) := by
  have hpos : 0 < portfolioVolatilityR (fun _ _ : Fin 1 => (1 : ℝ)) (fun _ => 1) := by
    simp [portfolioVolatilityR, portfolioVarianceR, matVecR]
  exact ⟨hpos, risk_contributions_sum_to_volatility 1 (fun _ _ => 1) (fun _ => 1) hpos⟩

/-! ### Monotonicity of linear-interpolation percentiles (C7) -/

theorem sorted_getD_le {ys : List ℚ} (hs : List.Sorted (· ≤ ·) ys) {i j : ℕ}
    (hij : i ≤ j) (hj : j < ys.length) : ys.getD i 0 ≤ ys.getD j 0 := by
  have hi : i < ys.length := lt_of_le_of_lt hij hj
  rw [List.getD_eq_get ys 0 hi, List.getD_eq_get ys 0 hj]
  exact hs.rel_get_of_le hij

theorem getD_succ_self_le {ys : List ℚ} (hs : List.Sorted (· ≤ ·) ys) {i : ℕ}
    (hi : i < ys.length) : ys.getD i 0 ≤ ys.getD (i + 1) (ys.getD i 0) := by
  by_cases h : i + 1 < ys.length
  · rw [List.getD_eq_get ys _ h, ← List.getD_eq_get ys 0 h]
    exact sorted_getD_le hs (Nat.le_succ i) h
  · rw [List.getD_eq_default _ _ (Nat.le_of_not_lt h)]

theorem floor_toNat_cast {r : ℚ} (hr : 0 ≤ r) : ((⌊r⌋.toNat : ℤ) : ℚ) = (⌊r⌋ : ℚ) := by
  rw [Int.toNat_of_nonneg (Int.floor_nonneg.mpr hr)]

theorem interpAt_ge_lo {ys : List ℚ} (hs : List.Sorted (· ≤ ·) ys) {r : ℚ}
    (hr : 0 ≤ r) (hlt : (⌊r⌋).toNat < ys.length) :
    ys.getD (⌊r⌋).toNat 0 ≤ interpAt ys r := by
  unfold interpAt
  have hfrac : 0 ≤ r - ((⌊r⌋).toNat : ℚ) := by
    have h1 : ((⌊r⌋ : ℚ)) ≤ r := Int.floor_le r
    have h2 : (((⌊r⌋).toNat : ℤ) : ℚ) = (⌊r⌋ : ℚ) := floor_toNat_cast hr
    push_cast at h2 ⊢
    linarith
  have hdiff : 0 ≤ ys.getD ((⌊r⌋).toNat + 1) (ys.getD (⌊r⌋).toNat 0) - ys.getD (⌊r⌋).toNat 0 :=
    sub_nonneg.mpr (getD_succ_self_le hs hlt)
  nlinarith [mul_nonneg hfrac hdiff]

theorem interpAt_le_hi {ys : List ℚ} (hs : List.Sorted (· ≤ ·) ys) {r : ℚ}
    (hr : 0 ≤ r) (hlt : (⌊r⌋).toNat < ys.length) :
    interpAt ys r ≤ ys.getD ((⌊r⌋).toNat + 1) (ys.getD (⌊r⌋).toNat 0) := by
  unfold interpAt
  have hfrac1 : r - ((⌊r⌋).toNat : ℚ) ≤ 1 := by
    have h1 : r < (⌊r⌋ : ℚ) + 1 := Int.lt_floor_add_one r
    have h2 : (((⌊r⌋).toNat : ℤ) : ℚ) = (⌊r⌋ : ℚ) := floor_toNat_cast hr
    push_cast at h2 ⊢
    linarith
  have hdiff : 0 ≤ ys.getD ((⌊r⌋).toNat + 1) (ys.getD (⌊r⌋).toNat 0) - ys.getD (⌊r⌋).toNat 0 :=
    sub_nonneg.mpr (getD_succ_self_le hs hlt)
  nlinarith [mul_le_of_le_one_left hdiff hfrac1]

theorem interpAt_mono {ys : List ℚ} (hs : List.Sorted (· ≤ ·) ys) {r r' : ℚ}
    (h0 : 0 ≤ r) (hrr : r ≤ r') (htop : r' ≤ (ys.length : ℚ) - 1) :
    interpAt ys r ≤ interpAt ys r' := by
  have h0' : 0 ≤ r' := le_trans h0 hrr
  have hn : 1 ≤ ys.length := by
    by_contra h
    have : ys.length = 0 := by omega
    rw [this] at htop
    norm_num at htop
    linarith
  have hi'lt : (⌊r'⌋).toNat < ys.length := by
    have h1 : ⌊r'⌋ ≤ ⌊((ys.length : ℚ) - 1)⌋ := Int.floor_le_floor htop
    have h2 : ⌊((ys.length : ℚ) - 1)⌋ = (ys.length : ℤ) - 1 := by
      rw [show ((ys.length : ℚ) - 1) = (((ys.length : ℤ) - 1 : ℤ) : ℚ) by push_cast; ring]
      exact Int.floor_intCast _
    omega
  have hilt : (⌊r⌋).toNat < ys.length :=
    lt_of_le_of_lt (by have := Int.floor_le_floor hrr; omega) hi'lt
  by_cases heq : (⌊r⌋).toNat = (⌊r'⌋).toNat
  · -- same interpolation cell: the slope is applied to a larger fraction
    unfold interpAt
    rw [heq]
    have hdiff : 0 ≤ ys.getD ((⌊r'⌋).toNat + 1) (ys.getD (⌊r'⌋).toNat 0) -
        ys.getD (⌊r'⌋).toNat 0 := sub_nonneg.mpr (getD_succ_self_le hs hi'lt)
    nlinarith [mul_le_mul_of_nonneg_right (sub_le_sub_right hrr ((((⌊r'⌋).toNat : ℕ) : ℚ))) hdiff]
  · -- distinct cells: go through the order statistics between them
    have hlt : (⌊r⌋).toNat < (⌊r'⌋).toNat := by
      have := Int.floor_le_floor hrr
      have h0f : 0 ≤ ⌊r⌋ := Int.floor_nonneg.mpr h0
      omega
    have step1 : interpAt ys r ≤ ys.getD ((⌊r⌋).toNat + 1) (ys.getD (⌊r⌋).toNat 0) :=
      interpAt_le_hi hs h0 hilt
    have hin : (⌊r⌋).toNat + 1 < ys.length := lt_of_le_of_lt hlt hi'lt
    have step2 : ys.getD ((⌊r⌋).toNat + 1) (ys.getD (⌊r⌋).toNat 0) ≤ ys.getD (⌊r'⌋).toNat 0 := by
      rw [List.getD_eq_get ys _ hin, ← List.getD_eq_get ys 0 hin]
      exact sorted_getD_le hs hlt hi'lt
    have step3 : ys.getD (⌊r'⌋).toNat 0 ≤ interpAt ys r' := interpAt_ge_lo hs h0' hi'lt
    linarith

theorem percentile_mono (xs : List ℚ) (hne : xs ≠ []) {p q : ℚ}
    (h0 : 0 ≤ p) (hpq : p ≤ q) (hq : q ≤ 100) : percentile xs p ≤ percentile xs q := by
  unfold percentile
  have hsort : List.Sorted (· ≤ ·) (xs.insertionSort (· ≤ ·)) :=
    List.sorted_insertionSort _ _
  have hlen : (xs.insertionSort (· ≤ ·)).length = xs.length :=
    List.length_insertionSort _ _
  have hn : 1 ≤ xs.length := List.length_pos.mpr hne
  have hn1 : (0 : ℚ) ≤ (xs.length : ℚ) - 1 := by
    have : (1 : ℚ) ≤ (xs.length : ℚ) := by exact_mod_cast hn
    linarith
  apply interpAt_mono hsort
  · positivity
  · apply mul_le_mul_of_nonneg_right _ hn1
    linarith
  · rw [hlen]
    have : q / 100 ≤ 1 := by linarith
    nlinarith

/-- C7: for every non-empty input vector the percentiles computed by
linear interpolation between order statistics satisfy
p5 ≤ p25 ≤ p50 ≤ p75 ≤ p95. -/
theorem percentiles_nondecreasing :
    ∀ xs : List ℚ, xs ≠ [] →
      percentile xs 5 ≤ percentile xs 25 ∧ percentile xs 25 ≤ percentile xs 50 ∧
      percentile xs 50 ≤ percentile xs 75 ∧ percentile xs 75 ≤ percentile xs 95 := by
  intro xs hne
  exact ⟨percentile_mono xs hne (by norm_num) (by norm_num) (by norm_num),
    percentile_mono xs hne (by norm_num) (by norm_num) (by norm_num),
    percentile_mono xs hne (by norm_num) (by norm_num) (by norm_num),
    percentile_mono xs hne (by norm_num) (by norm_num) (by norm_num)⟩

/-- C7 witness: the percentile chain on the concrete final values
`[90, 95, 100, 105, 110]`. -/
theorem percentiles_nondecreasing_witness :
    ([90, 95, 100, 105, 110] : List ℚ) ≠ [] ∧
    (percentile [90, 95, 100, 105, 110] 5 ≤ percentile [90, 95, 100, 105, 110] 25 ∧
      percentile [90, 95, 100, 105, 110] 25 ≤ percentile [90, 95, 100, 105, 110] 50 ∧
      percentile [90, 95, 100, 105, 110] 50 ≤ percentile [90, 95, 100, 105, 110] 75 ∧
      percentile [90, 95, 100, 105, 110] 75 ≤ percentile [90, 95, 100, 105, 110] 95) :=
  ⟨List.cons_ne_nil _ _, percentiles_nondecreasing _ (List.cons_ne_nil _ _)⟩

theorem all_isNumber_of_finite (rs : List ℚ) :
    (rs.map fun q => PyVal.float (.finite q)).all PyVal.isNumber = true := by
  simp [List.all_map, Function.comp, PyVal.isNumber]

/-- C3 amended theorem: request validation checks only the presence and
types of the fields; any pair of numeric series passes both validators
whatever the lengths (mismatched or shorter than 2) and values, so no
`ValidationError` is produced for such requests. -/
theorem validation_ignores_series_lengths :
    ∀ rsA rsB : List ℚ,
      validateSimulate (mkReturnsBody rsA rsB) = [] ∧
      validateOptimize (mkReturnsBody rsA rsB) = [] := by
  intro rsA rsB
  constructor <;>
    simp [validateSimulate, validateOptimize, mkReturnsBody, PyVal.get, PyVal.getOr,
      returnsErrors, returnsFormatErrors, assetSeriesErrors, positiveNumberErrors,
      positiveIntErrors, PyVal.truthy, PyVal.isDict, all_isNumber_of_finite, List.find?]

/-- C3 counterexample: a request whose series have mismatched lengths
across assets (and, for good measure, one with a single-entry series and
one with non-finite entries) passes `validate_request` of both functions
with no errors, instead of producing a `ValidationError`. -/
theorem validation_mismatched_lengths_counterexample :
    validateSimulate (mkReturnsBody [1/100, 1/50] [1/100]) = [] ∧
    validateOptimize (mkReturnsBody [1/100, 1/50] [1/100]) = [] ∧
    validateSimulate (.dict [("portfolioId", .str "p1"),
      ("returns", .dict [("A", .list [.float (.finite (1/100))])])]) = [] ∧
    validateSimulate (.dict [("portfolioId", .str "p1"),
      ("returns", .dict [("A", .list [.float .nan, .float .inf])])]) = [] := by
  refine ⟨(validation_ignores_series_lengths _ _).1,
    (validation_ignores_series_lengths _ _).2, by decide, by decide⟩

/-- C10: validation accepts Python booleans wherever it requires numbers
(`bool` is an `int` subclass), and the request proceeds to computation
with `True`/`False` read as 1/0: one simulation of one period is run and
the series becomes `[1, 0]`. -/
theorem validation_accepts_booleans :
    validateSimulate boolBody = [] ∧
    validateOptimize boolBody = [] ∧
    pyNum? (.bool true) = some 1 ∧
    pyNum? (.bool false) = some 0 ∧
    pyInt? (.bool true) = some 1 ∧
    seriesOf (boolBody.get "returns") "A" = some [1, 0] ∧
    (simulateEngine boolBody (some [("A", 1)]) fun i t => 0).trajectoriesOrNil =
      [[10000, 10000]] := by
  refine ⟨by decide, by decide, by decide, by decide, by decide, by decide, ?_⟩
  have hval : validateSimulate boolBody = [] := by decide
  have hret : boolBody.get "returns" = .dict [("A", .list [.bool true, .bool false])] := rfl
  have hgetInit : boolBody.getOr "initialInvestment" (.int 10000) = .int 10000 := rfl
  have hgetS : boolBody.getOr "numSimulations" (.int 1000) = .bool true := rfl
  have hgetP : boolBody.getOr "numPeriods" (.int 252) = .bool true := rfl
  have hkey : (PyVal.dict [("A", PyVal.list [.bool true, .bool false])]).hasKey "A" = true := rfl
  simp only [simulateEngine, hval, hret, hgetInit, hgetS, hgetP, hkey,
    List.map, List.filter, ne_eq, not_true_eq_false, not_false_eq_true, if_false, if_true]
  norm_num [List.mapM, List.mapM.loop, seriesOf, PyVal.get, PyVal.getOr, List.find?,
    pyNum?, pyInt?, sameLengths, run_monte_carlo_simulation, pathValue,
    List.range_succ, SimOutcome.trajectoriesOrNil]

/-- C4 amended theorem: neither handler has a `DegenerateInputError` code
path — for every request body, portfolio-lookup result and collaborator
outcome, the response is never the degenerate-input failure (the simulator
computes `sqrt` and returns its matrix unconditionally, and the optimizer
objective divides by the volatility without a zero guard). -/
theorem engines_never_degenerate :
    ∀ (body : PyVal) (portfolio : Option (List (String × ℚ))) (draws : ℕ → ℕ → ℚ)
      (solver : List (List ℚ) → SolverOutput),
      simulateEngine body portfolio draws ≠ SimOutcome.degenerateFailure ∧
      riskParityEngine body portfolio solver ≠ OptOutcome.degenerateFailure := by
  intro body portfolio draws solver
  constructor
  · unfold simulateEngine
    intro heq
    simp only [] at heq
    repeat' (first | split at heq | split_ifs at heq)
    all_goals simp at heq
  · unfold riskParityEngine
    intro heq
    simp only [] at heq
    repeat' (first | split at heq | split_ifs at heq)
    all_goals simp at heq

/-- C4 amended-theorem witness at a concrete (degenerate) input. -/
theorem engines_never_degenerate_witness :
    simulateEngine (.dict []) Option.none (fun i t => 0) ≠ SimOutcome.degenerateFailure ∧
    riskParityEngine (.dict []) Option.none (fun c => ⟨true, []⟩) ≠
      OptOutcome.degenerateFailure :=
  engines_never_degenerate (.dict []) Option.none (fun i t => 0) (fun c => ⟨true, []⟩)

/-- C4 counterexample: on a singular covariance matrix with zero portfolio
volatility at the evaluated weights — exactly the degenerate situation of
the claim — the optimizer does not fail with `DegenerateInputError`; it
returns a success result carrying the degenerate values (volatility 0, and
the 0/0 risk contributions, NaN in IEEE arithmetic, as 0 under the exact
rational convention). -/
theorem optimizer_returns_degenerate_result :
    covMatrixOf [[1/100, 1/100], [1/50, 1/50]] = [[0, 0], [0, 0]] ∧
    riskParityEngine degenerateBody (some [("A", 1/2), ("B", 1/2)])
        (fun c => ⟨true, [1/2, 1/2]⟩) =
      .ok { weights := [("A", 1/2), ("B", 1/2)], portfolioVolatility := 0,
            riskContribution := [("A", 0), ("B", 0)] } := by
  have hcov : covMatrixOf [[(1 : ℚ)/100, 1/100], [1/50, 1/50]] = [[0, 0], [0, 0]] := by
    norm_num [covMatrixOf, covEntry, listMean, List.zip]
  refine ⟨hcov, ?_⟩
  have hval : validateOptimize degenerateBody = [] := by decide
  have hret : degenerateBody.get "returns" =
      .dict [("A", .list [.float (.finite (1/100)), .float (.finite (1/100))]),
        ("B", .list [.float (.finite (1/50)), .float (.finite (1/50))])] := rfl
  have hkeyA : (degenerateBody.get "returns").hasKey "A" = true := rfl
  have hkeyB : (degenerateBody.get "returns").hasKey "B" = true := rfl
  have hrows : (["A", "B"].mapM (seriesOf (degenerateBody.get "returns"))) =
      some [[1/100, 1/100], [1/50, 1/50]] := rfl
  have hcAA : covEntry [(1 : ℚ)/100, 1/100] [(1 : ℚ)/100, 1/100] = 0 := by
    norm_num [covEntry, listMean, List.zip, List.zipWith]
  have hcAB : covEntry [(1 : ℚ)/100, 1/100] [(1 : ℚ)/50, 1/50] = 0 := by
    norm_num [covEntry, listMean, List.zip, List.zipWith]
  have hcBA : covEntry [(1 : ℚ)/50, 1/50] [(1 : ℚ)/100, 1/100] = 0 := by
    norm_num [covEntry, listMean, List.zip, List.zipWith]
  have hcBB : covEntry [(1 : ℚ)/50, 1/50] [(1 : ℚ)/50, 1/50] = 0 := by
    norm_num [covEntry, listMean, List.zip, List.zipWith]
  have hsq : Rat.sqrt 0 = 0 := by norm_num
  simp only [riskParityEngine, hval, hkeyA, hkeyB,
    List.map, List.filter, ne_eq, not_true_eq_false, not_false_eq_true, if_false, if_true]
  rw [hrows]
  norm_num [sameLengths, hcov, dotQ, matVecQ, List.zip, List.zipWith,
    hcAA, hcAB, hcBA, hcBB, hsq]

/-- C5 amended theorem: finiteness of outputs is not enforced — validation
accepts any float `f` with `¬(f ≤ 0)` under IEEE comparison as the initial
investment (which includes `+∞` and NaN, since those comparisons are
false), and `f` is written unchanged into column 0 of every trajectory row
of the serialized result. -/
theorem validation_accepts_nonfinite_investment :
    ∀ (f : FloatVal) (numPeriods numSimulations : ℕ) (draws : ℕ → ℕ → FloatVal) (i : ℕ),
      i < numSimulations →
      (PyVal.float f).leZero = false →
      validateSimulate (investmentBody f) = [] ∧
      ((runSimulationF f numPeriods numSimulations draws).getD i []).getD 0 .nan = f := by
  intro f numPeriods numSimulations draws i hi hle
  constructor
  · simp [validateSimulate, investmentBody, PyVal.get, PyVal.getOr, returnsErrors,
      returnsFormatErrors, assetSeriesErrors, positiveNumberErrors, positiveIntErrors,
      PyVal.truthy, PyVal.isDict, PyVal.isNumber, PyVal.isIntLike, List.find?, hle]
  · simp [runSimulationF, List.getD_eq_getElem?_getD, List.getElem?_map,
      List.getElem?_range, hi, pathValueF]

/-- C5 amended-theorem witness at `f = +∞`. -/
theorem validation_accepts_nonfinite_investment_witness :
    (0 < 1 ∧ (PyVal.float .inf).leZero = false) ∧
    (validateSimulate (investmentBody .inf) = [] ∧
      ((runSimulationF .inf 1 1 fun i t => .finite 0).getD 0 []).getD 0 .nan = .inf) :=
  ⟨⟨Nat.one_pos, rfl⟩,
    validation_accepts_nonfinite_investment .inf 1 1 (fun i t => .finite 0) 0
      Nat.one_pos rfl⟩

/-- C5 counterexample: the request with `initialInvestment = Infinity`
passes validation with no errors (IEEE: `inf <= 0` is false), and the
success result then serializes a trajectory matrix equal to
`[[inf, inf]]` — a non-finite value in the serialized result. -/
theorem nonfinite_serialized_result_counterexample :
    validateSimulate (.dict [("portfolioId", .str "p1"),
      ("returns", .dict [("A", .list [.float (.finite (1/100)), .float (.finite (1/50))])]),
      ("initialInvestment", .float .inf),
      ("numSimulations", .int 1), ("numPeriods", .int 1)]) = [] ∧
    runSimulationF .inf 1 1 (fun i t => .finite 0) = [[.inf, .inf]] ∧
    FloatVal.isFinite .inf = false := by
  refine ⟨by decide, ?_, rfl⟩
  norm_num [runSimulationF, pathValueF, FloatVal.mul, FloatVal.add, List.range_succ]

end Stratigos
